import Mathlib

/-!
Verification of the session event-recording and checkpoint-reconstruction
subsystem of the warpio hook scripts.

The Python sources are shallowly embedded:

* A transcript line is represented by the outcome of the Python function `json.loads`
  on it: `none` when decoding raises (the line is malformed), `some v`
  otherwise, where `v : JVal` models the decoded JSON value.  Field lists
  of objects are assumed duplicate-free, as `json.loads` collapses
  duplicate keys.
* The dynamic Python operations (`in`, subscript, `.get`, `str()`,
  `.startswith`, `.split`, set insertion, truthiness) are modelled by
  explicit functions returning `Option` results, where `none` models a
  raised exception (`TypeError`, `AttributeError`, `KeyError`).  A bare
  `except: continue` around each loop body keeps the effects performed
  before the exception; the per-line processing is therefore split into
  stages threaded with an ok-flag.
* `str()` / `repr` rendering of decoded JSON follows CPython: strings in
  single quotes, `True` / `False` / `None`, `[..]` and `\x7b..\x7d` with
  `", "` separators.  Escaping of quote characters inside strings and
  float formatting are not modelled (no claim exercises them).
* Handler entry points are modelled as functions from their inputs
  (environment lookups, decoded stdin, the current wall-clock renderings)
  to an exit code plus the ordered list of filesystem effects they
  perform; file contents are not modelled, only paths and ordering.
  `datetime.now()` is local wall-clock time; a `Clock` carries both the
  local and the UTC `%Y%m%d` rendering of the same instant so that
  date-related statements can be expressed.
-/

set_option autoImplicit false

namespace Warpio

/-- Decoded JSON value, the result of a successful Python `json.loads`. -/
inductive JVal where
  | str (s : String)
  | num (n : Int)
  | bool (b : Bool)
  | null
  | arr (elems : List JVal)
  | obj (fields : List (String × JVal))
deriving Repr

/-- A single-quote character, as a string. -/
def sq : String := String.singleton (Char.ofNat 39)

mutual

/-- CPython `str()` / `repr` rendering of a decoded JSON value. -/
def pyStr : JVal → String
  | .str s => sq ++ s ++ sq
  | .num n => toString n
  | .bool b => if b then "True" else "False"
  | .null => "None"
  | .arr l => "[" ++ pyStrElems l ++ "]"
  | .obj f => "\x7b" ++ pyStrFields f ++ "\x7d"

/-- Rendering of list elements, comma-separated. -/
def pyStrElems : List JVal → String
  | [] => ""
  | [v] => pyStr v
  | v :: w :: rest => pyStr v ++ ", " ++ pyStrElems (w :: rest)

/-- Rendering of dict entries, comma-separated. -/
def pyStrFields : List (String × JVal) → String
  | [] => ""
  | [(k, v)] => sq ++ k ++ sq ++ ": " ++ pyStr v
  | (k, v) :: p :: rest => sq ++ k ++ sq ++ ": " ++ pyStr v ++ ", " ++ pyStrFields (p :: rest)

end

/-- Naive substring search over character lists. -/
def infixSearch (pat : List Char) : List Char → Bool
  | [] => pat.isEmpty
  | c :: rest => pat.isPrefixOf (c :: rest) || infixSearch pat rest

/-- Python `pat in s` for strings: substring containment. -/
def strContains (s pat : String) : Bool := infixSearch pat.data s.data

/-- Python `s.startswith(pfx)`. -/
def pyStartsWith (s pfx : String) : Bool := pfx.data.isPrefixOf s.data

/-- The underscore character. -/
def usc : Char := Char.ofNat 95

/-- Greedy left-to-right split on a double underscore (accumulator holds the
current token reversed), matching Python `s.split("__")`. -/
def splitDunder : List Char → List Char → List (List Char)
  | acc, [] => [acc.reverse]
  | acc, [c] => [(c :: acc).reverse]
  | acc, c1 :: c2 :: rest =>
    if c1 = usc && c2 = usc then acc.reverse :: splitDunder [] rest
    else splitDunder (c1 :: acc) (c2 :: rest)

/-- Python `s.split("__")`. -/
def pySplitDunder (s : String) : List String :=
  (splitDunder [] s.data).map fun l => ⟨l⟩

/-- Key lookup in a decoded JSON object (field lists are duplicate-free). -/
def findField : List (String × JVal) → String → Option JVal
  | [], _ => none
  | (k, v) :: rest, key => if k == key then some v else findField rest key

/-- Whether the value is a Python dict. -/
def JVal.isObj : JVal → Bool
  | .obj _ => true
  | _ => false

/-- Python `key in data`: key membership for dicts, element membership for
lists, substring for strings; `none` models the `TypeError` raised on
numbers, booleans and `None`. -/
def pyIn? (key : String) : JVal → Option Bool
  | .obj f => some (findField f key).isSome
  | .arr l => some (l.any fun v => match v with | .str s => s == key | _ => false)
  | .str s => some (strContains s key)
  | _ => none

/-- Python `data.get(key, dflt)`; `none` models the `AttributeError` raised
when `data` is not a dict. -/
def pyGet? (d : JVal) (key : String) (dflt : JVal) : Option JVal :=
  match d with
  | .obj f => some ((findField f key).getD dflt)
  | _ => none

/-- Python `data[key]`; `none` models `TypeError` (non-dict) or `KeyError`
(missing key). -/
def pySubscript? (d : JVal) (key : String) : Option JVal :=
  match d with
  | .obj f => findField f key
  | _ => none

/-- Python truthiness of a decoded JSON value. -/
def pyTruthy : JVal → Bool
  | .str s => !(s == "")
  | .num n => !(n == 0)
  | .bool b => b
  | .null => false
  | .arr l => !l.isEmpty
  | .obj f => !f.isEmpty

/-- Whether the value is hashable in Python (so `set.add` succeeds). -/
def pyHashable : JVal → Bool
  | .arr _ => false
  | .obj _ => false
  | _ => true

/-- Numeric view used by Python equality (`True == 1`, `False == 0`). -/
def pyIntVal? : JVal → Option Int
  | .num n => some n
  | .bool b => some (if b then 1 else 0)
  | _ => none

/-- Python `==` on hashable decoded JSON values. -/
def pyEqVal (a b : JVal) : Bool :=
  match pyIntVal? a, pyIntVal? b with
  | some x, some y => x == y
  | _, _ =>
    match a, b with
    | .str s, .str u => s == u
    | .null, .null => true
    | _, _ => false

/-- Python `set.add` on a set represented as a duplicate-free list in
insertion order; `none` models the `TypeError` on unhashable values. -/
def pySetInsert (v : JVal) (s : List JVal) : Option (List JVal) :=
  if pyHashable v then some (if s.any fun w => pyEqVal w v then s else s ++ [v]) else none

/-!
Transcript parsing, Stop/session-summary-logger.py (`parse_transcript`)
and PreCompact/workflow-checkpoint.py (`create_checkpoint`).  Both scripts
run, per decodable line, first the subagent-type block, then (summary
only) the tool-name block, then the file-path block; a raised exception
skips the rest of that line but keeps earlier effects.
-/

/-- The subagent-type block shared by both scripts: when the rendered
record contains `subagent_type`, add `data.get("subagent_type", "")` to
the experts set.  Returns the new experts set and whether the line
continues (false models an exception inside the block). -/
def expertInsert (experts : List JVal) (d : JVal) : List JVal × Bool :=
  if strContains (pyStr d) "subagent_type" then
    match pyGet? d "subagent_type" (.str "") with
    | none => (experts, false)
    | some e =>
      match pySetInsert e experts with
      | none => (experts, false)
      | some es => (es, true)
  else (experts, true)

/-- Intermediate state of the summary parse (sets as insertion-ordered
duplicate-free lists; `buckets` is the `defaultdict(set)` in first-access
order). -/
structure SumState where
  experts : List JVal
  buckets : List (String × List String)
  total : Nat
  files : List JVal
deriving Repr

/-- Add a tool to the bucket of an expert (`defaultdict(set)` semantics). -/
def addBucket (expert tool : String) : List (String × List String) → List (String × List String)
  | [] => [(expert, [tool])]
  | (k, ts) :: rest =>
    if k == expert then (k, if ts.contains tool then ts else ts ++ [tool]) :: rest
    else (k, ts) :: addBucket expert tool rest

/-- The tool-name block of the summary parse: on a record containing key
`tool_name` whose value starts with `mcp__`, count the call and classify
`tool.split("__")[1]` through the static server table.  Returns the new
buckets, the new total, and the continue flag. -/
def toolUpdate (buckets : List (String × List String)) (total : Nat) (d : JVal) :
    List (String × List String) × Nat × Bool :=
  match pyIn? "tool_name" d with
  | none => (buckets, total, false)
  | some false => (buckets, total, true)
  | some true =>
    match pySubscript? d "tool_name" with
    | none => (buckets, total, false)
    | some (.str t) =>
      if pyStartsWith t "mcp__" then
        let total := total + 1
        let parts := pySplitDunder t
        if parts.length ≥ 2 then
          let server := parts.getD 1 ""
          if server ∈ ["hdf5", "adios", "parquet"] then
            (addBucket "data-expert" t buckets, total, true)
          else if server ∈ ["plot", "pandas"] then
            (addBucket "analysis-expert" t buckets, total, true)
          else if server ∈ ["darshan", "node_hardware"] then
            (addBucket "hpc-expert" t buckets, total, true)
          else if server ∈ ["arxiv", "context7"] then
            (addBucket "research-expert" t buckets, total, true)
          else (buckets, total, true)
        else (buckets, total, true)
      else (buckets, total, true)
    | some _ => (buckets, total, false)

/-- The file-path block of the summary parse: on a rendered record
containing `file_path`, for dict records with a `tool_input` key, add the
truthy `tool_input.get("file_path", "")` to the files set.  This is the
last block of the loop body, so an exception inside it is the identity. -/
def sumFileInsert (files : List JVal) (d : JVal) : List JVal :=
  if strContains (pyStr d) "file_path" then
    match d with
    | .obj flds =>
      match findField flds "tool_input" with
      | some ti =>
        match pyGet? ti "file_path" (.str "") with
        | none => files
        | some fp => if pyTruthy fp then (pySetInsert fp files).getD files else files
      | none => files
    | _ => files
  else files

/-- First block of the summary loop body. -/
def sumExpertStage (st : SumState) (d : JVal) : SumState × Bool :=
  ({ st with experts := (expertInsert st.experts d).1 }, (expertInsert st.experts d).2)

/-- Second block of the summary loop body. -/
def sumToolStage (st : SumState) (d : JVal) : SumState × Bool :=
  ({ st with buckets := (toolUpdate st.buckets st.total d).1,
             total := (toolUpdate st.buckets st.total d).2.1 },
   (toolUpdate st.buckets st.total d).2.2)

/-- Third block of the summary loop body. -/
def sumFileStage (st : SumState) (d : JVal) : SumState :=
  { st with files := sumFileInsert st.files d }

/-- One line of the summary loop: a malformed line is skipped, a decoded
record runs the three blocks with exception-to-continue semantics. -/
def sumStep (st : SumState) (line : Option JVal) : SumState :=
  match line with
  | none => st
  | some d =>
    let r1 := sumExpertStage st d
    if r1.2 then
      let r2 := sumToolStage r1.1 d
      if r2.2 then sumFileStage r2.1 d else r2.1
    else r1.1

/-- Result of `parse_transcript` (sets serialized as lists). -/
structure Summary where
  experts_used : List JVal
  mcps_by_expert : List (String × List String)
  total_mcp_calls : Nat
  orchestration_pattern : String
  files_processed : List JVal
deriving Repr

/-- Initial summary state. -/
def initSumState : SumState := ⟨[], [], 0, []⟩

/-- Stop/session-summary-logger.py `parse_transcript`, on the decoded
lines of the transcript: forward scan, then the orchestration pattern is
`multi-expert` exactly when more than one distinct expert was seen. -/
def parse_transcript (lines : List (Option JVal)) : Summary :=
  let st := lines.foldl sumStep initSumState
  { experts_used := st.experts
    mcps_by_expert := st.buckets
    total_mcp_calls := st.total
    orchestration_pattern := if st.experts.length > 1 then "multi-expert" else "single"
    files_processed := st.files }

/-- Intermediate state of the checkpoint scan: experts set plus the
`last_files` list (appended to without deduplication, bounded at 5). -/
structure CkState where
  experts : List JVal
  last_files : List JVal
deriving Repr

/-- First block of the checkpoint loop body (same code as the summary
subagent-type block). -/
def ckExpertStage (st : CkState) (d : JVal) : CkState × Bool :=
  ({ st with experts := (expertInsert st.experts d).1 }, (expertInsert st.experts d).2)

/-- The file reference the checkpoint file block would append for a
decoded record, ignoring the length bound: `data["tool_input"]` then
`.get("file_path", "")` when truthy; `none` covers both "no reference"
and an exception (the block is last in the loop body, so both are the
identity on the state). -/
def ckFileRef? (d : JVal) : Option JVal :=
  match pyIn? "tool_input" d with
  | some true =>
    match pySubscript? d "tool_input" with
    | none => none
    | some ti =>
      match pyGet? ti "file_path" (.str "") with
      | none => none
      | some fp => if pyTruthy fp then some fp else none
  | _ => none

/-- Second block of the checkpoint loop body: guarded by `file_path`
appearing in the rendered record and by fewer than 5 collected files. -/
def ckFileStage (st : CkState) (d : JVal) : CkState :=
  if strContains (pyStr d) "file_path" ∧ st.last_files.length < 5 then
    match ckFileRef? d with
    | some fp => { st with last_files := st.last_files ++ [fp] }
    | none => st
  else st

/-- One line of the checkpoint loop. -/
def ckStep (st : CkState) (line : Option JVal) : CkState :=
  match line with
  | none => st
  | some d =>
    let r1 := ckExpertStage st d
    if r1.2 then ckFileStage r1.1 d else r1.1

/-- PreCompact/workflow-checkpoint.py transcript scan: the loop runs over
`reversed(lines)`. -/
def create_checkpoint_scan (lines : List (Option JVal)) : CkState :=
  lines.reverse.foldl ckStep ⟨[], []⟩

/-- Python `f"..."` interpolation rendering (`str()`, not `repr`): a
string renders without quotes, everything else as `pyStr`. -/
def pyFStr : JVal → String
  | .str s => s
  | v => pyStr v

/-- Python `", ".join(xs)` over set members; `none` models the
`TypeError` raised when a member is not a string. -/
def pyJoinComma? : List JVal → Option String
  | [] => some ""
  | [.str s] => some s
  | .str s :: v :: rest => (pyJoinComma? (v :: rest)).map fun r => s ++ ", " ++ r
  | _ => none

/-- The `resume_instructions` list built by `create_checkpoint`: one line
naming the experts when any were seen, one line naming `last_files[0]`
when any file was collected.  A `TypeError` inside the join is swallowed
by the enclosing bare `except`, leaving the instructions collected so
far. -/
def resumeInstructions (experts files : List JVal) : List String :=
  match experts with
  | [] => match files.head? with
          | some f => ["Continue processing: " ++ pyFStr f]
          | none => []
  | _ :: _ =>
    match pyJoinComma? experts with
    | none => []
    | some j =>
      ("Resume with experts: " ++ j) ::
        (match files.head? with
         | some f => ["Continue processing: " ++ pyFStr f]
         | none => [])

/-- Environment metadata recorded in a checkpoint. -/
structure EnvMeta where
  warpio_version : String
  working_dir : String
  python_env : String
deriving Repr, DecidableEq

/-- Checkpoint artifact built by `create_checkpoint`; `state` is `none`
when the transcript could not be read (the bare `except` leaves the
`state` key unset and the instructions empty). -/
structure Checkpoint where
  timestamp : String
  trigger : String
  transcript : String
  environment : EnvMeta
  state : Option CkState
  resume_instructions : List String
deriving Repr

/-- PreCompact/workflow-checkpoint.py `create_checkpoint`:
`transcript_readable` is whether `open(transcript_path)` succeeds, and
`lines` are the decoded lines behind it. -/
def create_checkpoint (nowIso : String) (env : EnvMeta) (trigger transcript_path : String)
    (transcript_readable : Bool) (lines : List (Option JVal)) : Checkpoint :=
  if transcript_readable then
    let st := create_checkpoint_scan lines
    { timestamp := nowIso, trigger := trigger, transcript := transcript_path,
      environment := env, state := some st,
      resume_instructions := resumeInstructions st.experts st.last_files }
  else
    { timestamp := nowIso, trigger := trigger, transcript := transcript_path,
      environment := env, state := none, resume_instructions := [] }

/-!
Handler entry points as effect traces.  An invocation is modelled by the
exit code, whether stdin was consumed, and the ordered filesystem writes
it performs (contents are not modelled, only paths).  Wall-clock readings
(`datetime.now().strftime(...)`) enter as explicit string parameters.
-/

/-- A filesystem write effect. -/
inductive FsEffect where
  | mkdirp (path : String)
  | fileWrite (path : String)
  | unlink (path : String)
  | symlink (target linkPath : String)
deriving Repr, DecidableEq

/-- Observable outcome of one handler invocation. -/
structure HandlerRun where
  exitCode : Nat
  readStdin : Bool
  effects : List FsEffect
  stdout : List String
deriving Repr, DecidableEq

/-- The session directory both the checkpoint and the summary handler
write into: `WARPIO_LOG_DIR` (default `.warpio-logs`) joined with
`session-` plus `datetime.now().strftime("%Y%m%d-%H%M%S")` of the
invocation. -/
def sessionDir (logDirEnv : Option String) (nowStamp : String) : String :=
  logDirEnv.getD ".warpio-logs" ++ "/session-" ++ nowStamp

/-- PreCompact/workflow-checkpoint.py `main`: gated on `WARPIO_LOG`;
reads stdin only past the gate; on a decoded dict it creates the session
directory, writes `checkpoint-{%H%M%S}.json`, unlinks
`latest-checkpoint.json` when present, re-creates it as a symlink to the
new file, and prints a confirmation; any failure (malformed stdin,
non-dict stdin) is swallowed; the exit status is 0 on every path. -/
def checkpoint_main (warpioLog logDirEnv : Option String) (stdin : Option JVal)
    (nowStamp ckStamp : String) (latestExists : Bool) : HandlerRun :=
  match warpioLog with
  | none => ⟨0, false, [], []⟩
  | some flag =>
    if flag = "" then ⟨0, false, [], []⟩
    else
      match stdin with
      | none => ⟨0, true, [], []⟩
      | some data =>
        if data.isObj then
          let sd := sessionDir logDirEnv nowStamp
          let ckName := "checkpoint-" ++ ckStamp ++ ".json"
          ⟨0, true,
            [.mkdirp sd, .fileWrite (sd ++ "/" ++ ckName)] ++
              (if latestExists then [.unlink (sd ++ "/latest-checkpoint.json")] else []) ++
              [.symlink ckName (sd ++ "/latest-checkpoint.json")],
            ["✓ Checkpoint created: " ++ ckName]⟩
        else ⟨0, true, [], []⟩

/-- Stop/session-summary-logger.py `main`: same `WARPIO_LOG` gate; on a
decoded dict it creates the session directory (named from the invocation
wall clock, like the checkpoint handler) and opens
`session-summary.json` (creating the file).  `transcriptReadable` is
whether `open` on the `transcript_path` taken from stdin succeeds: only
then does `parse_transcript` reach its set-to-list conversion, so the
summary is serializable, `json.dump` completes and `summary.md` is also
written; on an unreadable transcript the bare `except` in
`parse_transcript` leaves the sets unconverted, `json.dump` raises
`TypeError` right after `session-summary.json` is created, and
`summary.md` is never written.  Either way the failure is swallowed and
the exit status is 0. -/
def summary_main (warpioLog logDirEnv : Option String) (stdin : Option JVal)
    (nowStamp : String) (transcriptReadable : Bool) : HandlerRun :=
  match warpioLog with
  | none => ⟨0, false, [], []⟩
  | some flag =>
    if flag = "" then ⟨0, false, [], []⟩
    else
      match stdin with
      | none => ⟨0, true, [], []⟩
      | some data =>
        if data.isObj then
          let sd := sessionDir logDirEnv nowStamp
          ⟨0, true,
            [.mkdirp sd, .fileWrite (sd ++ "/session-summary.json")] ++
              (if transcriptReadable then [.fileWrite (sd ++ "/summary.md")] else []), []⟩
        else ⟨0, true, [], []⟩

/-!
PreToolUse/task-logger.py, PostToolUse/performance-tracker.py and
SubagentStop/result-aggregator.py: directory resolution, daily file
names, and dispatch responses.
-/

/-- Filesystem oracle for directory resolution: `probeOk d` is whether
`makedirs(d)` followed by the `.test_write` write-then-delete probe
succeeds, `mkdirOk d` is whether `makedirs(d)` alone succeeds. -/
structure DirFs where
  home : String
  cwd : String
  probeOk : String → Bool
  mkdirOk : String → Bool

/-- PreToolUse/task-logger.py `get_log_directory`: the single first
candidate is `WORKFLOW_DIR` when set, else `/tmp/warpio-workflows`; it
alone is verified by the write-then-delete probe; on failure the
home-rooted fallback is tried (verified only by `makedirs`), then the
current directory (unverified). -/
def get_log_directory (workflowDir : Option String) (fs : DirFs) : String :=
  let logDir := workflowDir.getD "/tmp/warpio-workflows"
  if fs.probeOk logDir then logDir
  else
    let fallback := fs.home ++ "/.warpio/logs"
    if fs.mkdirOk fallback then fallback else fs.cwd

/-- PostToolUse/performance-tracker.py `get_metrics_directory` (as
written in the source text; the module itself does not parse, see the
dispatch theorems): same candidate order but with `makedirs`-only
verification and a `metrics` fallback. -/
def get_metrics_directory (workflowDir : Option String) (fs : DirFs) : String :=
  let metricsDir := workflowDir.getD "/tmp/warpio-workflows"
  if fs.mkdirOk metricsDir then metricsDir
  else
    let fallback := fs.home ++ "/.warpio/metrics"
    if fs.mkdirOk fallback then fallback else fs.cwd

/-- Two renderings of one instant: `datetime.now().strftime("%Y%m%d")`
uses the local timezone; `utcDate` is the UTC rendering of the same
instant, used only to state date claims. -/
structure Clock where
  localDate : String
  utcDate : String
deriving Repr, DecidableEq

/-- Daily log file targeted by `log_task`. -/
def log_task_file (workflowDir : Option String) (fs : DirFs) (c : Clock) : String :=
  get_log_directory workflowDir fs ++ "/tasks_" ++ c.localDate ++ ".jsonl"

/-- Daily log file targeted by `aggregate_results` (fixed directory). -/
def subagent_results_file (c : Clock) : String :=
  "/tmp/warpio-workflows/subagent_results_" ++ c.localDate ++ ".jsonl"

/-- One structured response object written to stdout by a hook. -/
structure HookResponse where
  decision : String
  reason : String
  additionalContext : Option String
deriving Repr, DecidableEq

/-- PreToolUse/task-logger.py `main` dispatch: response and exit status
as a function of the decoded stdin; `errMsg` is the interpreter text of
the exception caught by the final handler (reachable only for non-dict
stdin, where `.get` raises). -/
def task_logger_main (errMsg : String) (stdin : Option JVal) : HookResponse × Nat :=
  match stdin with
  | none => (⟨"approve", "Invalid input format, proceeding normally", none⟩, 0)
  | some d =>
    if d.isObj then (⟨"approve", "Task logged for orchestration tracking", none⟩, 0)
    else (⟨"approve", "Hook error (continuing): " ++ errMsg, none⟩, 0)

/-- SubagentStop/result-aggregator.py `main` dispatch: any exception
(malformed or non-dict stdin) falls to the plain approval; the success
path attaches the subagent name in `additionalContext`. -/
def result_aggregator_main (stdin : Option JVal) : HookResponse × Nat :=
  match stdin with
  | none => (⟨"approve", "Proceeding normally", none⟩, 0)
  | some d =>
    match d with
    | .obj flds =>
      let nm := (findField flds "subagent_name").getD (.str "")
      (⟨"approve", "Subagent results aggregated",
        some ("Results from " ++ pyFStr nm ++ " captured for orchestration analysis")⟩, 0)
    | _ => (⟨"approve", "Proceeding normally", none⟩, 0)

/-!
Specification-level views used to state the corrected claims.
-/

/-- Whether the subagent-type block completes without an exception on a
given record; this does not depend on the accumulated state. -/
def ckLineOk (d : JVal) : Bool :=
  !(strContains (pyStr d) "subagent_type") ||
    (match pyGet? d "subagent_type" (.str "") with
     | none => false
     | some e => pyHashable e)

/-- The file-path reference one checkpoint transcript line contributes
when the bound of 5 is ignored: nothing for a malformed line, nothing
when the subagent-type block aborts the line, otherwise the reference the
file block extracts. -/
def lineFileRef? : Option JVal → Option JVal
  | none => none
  | some d =>
    if ckLineOk d then
      if strContains (pyStr d) "file_path" then ckFileRef? d else none
    else none

/-!
Helper lemmas.
-/

/-- The continue flag of the subagent-type block depends only on the
record. -/
lemma expertInsert_snd (experts : List JVal) (d : JVal) :
    (expertInsert experts d).2 = ckLineOk d := by
  unfold expertInsert ckLineOk pySetInsert
  by_cases h : strContains (pyStr d) "subagent_type"
  · simp only [h, if_true, Bool.not_true, Bool.false_or]
    cases hg : pyGet? d "subagent_type" (.str "") with
    | none => rfl
    | some e => by_cases hh : pyHashable e <;> simp [hh]
  · simp [h]

/-- What one checkpoint loop iteration does to `last_files`. -/
lemma ckStep_last_files (st : CkState) (x : Option JVal) :
    (ckStep st x).last_files =
      match lineFileRef? x with
      | some fp => if st.last_files.length < 5 then st.last_files ++ [fp] else st.last_files
      | none => st.last_files := by
  cases x with
  | none => rfl
  | some d =>
    show (ckStep st (some d)).last_files = _
    unfold ckStep lineFileRef?
    have hsnd : (ckExpertStage st d).2 = ckLineOk d := expertInsert_snd st.experts d
    have hlf : (ckExpertStage st d).1.last_files = st.last_files := rfl
    by_cases hok : ckLineOk d
    · rw [hok] at hsnd
      simp only [hsnd, if_true, hok]
      unfold ckFileStage
      rw [hlf]
      by_cases hc : strContains (pyStr d) "file_path"
      · simp only [hc, if_true, true_and]
        by_cases hl : st.last_files.length < 5
        · simp only [hl, if_true]
          cases hr : ckFileRef? d <;> simp [hr, hlf]
        · simp only [hl, if_false]
          cases hr : ckFileRef? d <;> simp [hr, hlf]
      · simp only [hc, if_false]
        cases hr : ckFileRef? d <;> simp [hlf]
    · rw [eq_false_of_ne_true hok] at hsnd
      simp [hsnd, eq_false_of_ne_true hok, hlf]

/-- Specialization of `ckStep_last_files`: a line with no reference. -/
lemma ckStep_last_files_none (st : CkState) (x : Option JVal) (hr : lineFileRef? x = none) :
    (ckStep st x).last_files = st.last_files := by
  have hx := ckStep_last_files st x
  rw [hr] at hx
  exact hx

/-- Specialization of `ckStep_last_files`: a line with a reference. -/
lemma ckStep_last_files_some (st : CkState) (x : Option JVal) (fp : JVal)
    (hr : lineFileRef? x = some fp) :
    (ckStep st x).last_files =
      if st.last_files.length < 5 then st.last_files ++ [fp] else st.last_files := by
  have hx := ckStep_last_files st x
  rw [hr] at hx
  exact hx

/-- Folding the checkpoint loop from a state with at most 5 collected
files appends exactly the next `5 - k` per-line references. -/
lemma ckFold_last_files (l : List (Option JVal)) :
    ∀ st : CkState, st.last_files.length ≤ 5 →
      (l.foldl ckStep st).last_files
        = st.last_files ++ (l.filterMap lineFileRef?).take (5 - st.last_files.length) := by
  induction l with
  | nil => intro st _; simp
  | cons x l ih =>
    intro st h
    rw [List.foldl_cons]
    cases hr : lineFileRef? x with
    | none =>
      have hx := ckStep_last_files_none st x hr
      rw [List.filterMap_cons_none hr, ih (ckStep st x) (by rw [hx]; exact h), hx]
    | some fp =>
      have hx := ckStep_last_files_some st x fp hr
      rw [List.filterMap_cons_some hr]
      by_cases hl : st.last_files.length < 5
      · rw [if_pos hl] at hx
        rw [ih (ckStep st x) (by rw [hx]; simp; omega), hx]
        have hlen : (st.last_files ++ [fp]).length = st.last_files.length + 1 := by simp
        rw [hlen]
        obtain ⟨m, hm⟩ : ∃ m, 5 - st.last_files.length = m + 1 :=
          ⟨5 - (st.last_files.length + 1), by omega⟩
        have hm2 : 5 - (st.last_files.length + 1) = m := by omega
        rw [hm, hm2, List.take_succ_cons, List.append_assoc]
        rfl
      · rw [if_neg hl] at hx
        have h5 : st.last_files.length = 5 := by omega
        rw [ih (ckStep st x) (by rw [hx]; omega), hx, h5]
        simp

/-- Appending a corrupt line to a transcript leaves the summary parse
unchanged. -/
lemma parse_transcript_append_none (lines : List (Option JVal)) :
    parse_transcript (lines ++ [none]) = parse_transcript lines := by
  unfold parse_transcript
  rw [List.foldl_append]
  rfl

/-- A record whose only key is `tool_name` never aborts the subagent-type
block: the `.get` default is the hashable empty string. -/
lemma ckLineOk_toolOnly (t : String) : ckLineOk (.obj [("tool_name", .str t)]) = true := by
  have h : pyGet? (.obj [("tool_name", .str t)]) "subagent_type" (.str "") = some (.str "") := rfl
  unfold ckLineOk
  rw [h]
  simp [pyHashable]

/-- The summary loop body changes the experts set exactly as the
subagent-type block prescribes. -/
lemma sumStep_experts (st : SumState) (d : JVal) :
    (sumStep st (some d)).experts = (expertInsert st.experts d).1 := by
  unfold sumStep
  cases h1 : (sumExpertStage st d).2 <;>
    simp only [h1, Bool.false_eq_true, if_false, if_true]
  · rfl
  · cases h2 : (sumToolStage (sumExpertStage st d).1 d).2 <;>
      simp only [h2, Bool.false_eq_true, if_false, if_true] <;> rfl

/-- On a line whose subagent-type block succeeds, the summary loop body
changes the buckets exactly as the tool-name block prescribes. -/
lemma sumStep_buckets (st : SumState) (d : JVal) (hok : ckLineOk d = true) :
    (sumStep st (some d)).buckets = (toolUpdate st.buckets st.total d).1 := by
  unfold sumStep
  have h1 : (sumExpertStage st d).2 = true := by
    show (expertInsert st.experts d).2 = true
    rw [expertInsert_snd]; exact hok
  simp only [h1, if_true]
  cases h2 : (sumToolStage (sumExpertStage st d).1 d).2 <;>
    simp only [h2, Bool.false_eq_true, if_false, if_true] <;> rfl

/-- On a line whose subagent-type block succeeds, the summary loop body
changes the call total exactly as the tool-name block prescribes. -/
lemma sumStep_total (st : SumState) (d : JVal) (hok : ckLineOk d = true) :
    (sumStep st (some d)).total = (toolUpdate st.buckets st.total d).2.1 := by
  unfold sumStep
  have h1 : (sumExpertStage st d).2 = true := by
    show (expertInsert st.experts d).2 = true
    rw [expertInsert_snd]; exact hok
  simp only [h1, if_true]
  cases h2 : (sumToolStage (sumExpertStage st d).1 d).2 <;>
    simp only [h2, Bool.false_eq_true, if_false, if_true] <;> rfl

/-- On a record rendered with `subagent_type` but without that top-level
key, the subagent-type block adds the empty string to the experts set and
continues. -/
lemma expertInsert_noKey (experts : List JVal) (flds : List (String × JVal))
    (h1 : strContains (pyStr (.obj flds)) "subagent_type" = true)
    (h2 : findField flds "subagent_type" = none) :
    expertInsert experts (.obj flds)
      = (if experts.any (fun w => pyEqVal w (.str "")) then experts
         else experts ++ [.str ""], true) := by
  unfold expertInsert pyGet? pySetInsert
  simp [h1, h2, pyHashable]

/-- Reduction of the tool-name block on a record whose only key is
`tool_name` with a string value. -/
lemma toolUpdate_toolOnly (buckets : List (String × List String)) (total : Nat) (t : String) :
    toolUpdate buckets total (.obj [("tool_name", .str t)])
      = (if pyStartsWith t "mcp__" then
           (if (pySplitDunder t).length ≥ 2 then
              (if (pySplitDunder t).getD 1 "" ∈ (["hdf5", "adios", "parquet"] : List String) then
                 (addBucket "data-expert" t buckets, total + 1, true)
               else if (pySplitDunder t).getD 1 "" ∈ (["plot", "pandas"] : List String) then
                 (addBucket "analysis-expert" t buckets, total + 1, true)
               else if (pySplitDunder t).getD 1 "" ∈ (["darshan", "node_hardware"] : List String) then
                 (addBucket "hpc-expert" t buckets, total + 1, true)
               else if (pySplitDunder t).getD 1 "" ∈ (["arxiv", "context7"] : List String) then
                 (addBucket "research-expert" t buckets, total + 1, true)
               else (buckets, total + 1, true))
            else (buckets, total + 1, true))
         else (buckets, total, true)) := rfl

/-!
Claim theorems.
-/

/-- Claim C1: the claim asserts that all three logging dispatchers
(PreToolUse task logger, PostToolUse performance tracker, SubagentStop
result aggregator) always emit exactly one approval object and exit 0.
This holds for the two dispatchers that are valid Python, proved here for
every decoded stdin (malformed, non-dict, or dict); the PostToolUse
performance tracker, however, is not valid Python (its `try:` block at
line 33 is interrupted by dedented code before any `except`), so every
invocation of it dies in a `SyntaxError` with a non-zero exit before
reading stdin — the claim fails on the code as written. -/
theorem C1_valid_dispatchers_always_approve (errMsg : String) (stdin : Option JVal) :
    (task_logger_main errMsg stdin).1.decision = "approve"
    ∧ (task_logger_main errMsg stdin).2 = 0
    ∧ (result_aggregator_main stdin).1.decision = "approve"
    ∧ (result_aggregator_main stdin).2 = 0 := by
  cases stdin with
  | none => exact ⟨rfl, rfl, rfl, rfl⟩
  | some d => cases d <;> exact ⟨rfl, rfl, rfl, rfl⟩

/-- The three-line transcript of claim C2: a record naming subagent_type
`data-expert`, a record invoking `mcp__hdf5__convert` on file `a.nc`, and
a malformed line. -/
def c2Transcript : List (Option JVal) :=
  [some (.obj [("subagent_type", .str "data-expert")]),
   some (.obj [("tool_name", .str "mcp__hdf5__convert"),
               ("tool_input", .obj [("file_path", .str "a.nc")])]),
   none]

/-- Claim C2: on the three-line transcript, the summary parse yields
exactly one expert `data-expert`, one MCP call bucketed as
`data-expert → mcp__hdf5__convert`, the single file `a.nc`, and the
`single` orchestration pattern. -/
theorem C2_end_to_end_scenario :
    (parse_transcript c2Transcript).experts_used = [.str "data-expert"]
    ∧ (parse_transcript c2Transcript).total_mcp_calls = 1
    ∧ (parse_transcript c2Transcript).mcps_by_expert = [("data-expert", ["mcp__hdf5__convert"])]
    ∧ (parse_transcript c2Transcript).files_processed = [.str "a.nc"]
    ∧ (parse_transcript c2Transcript).orchestration_pattern = "single" :=
  ⟨rfl, rfl, rfl, rfl, rfl⟩

/-- Claim C3, counterexample: the server segment `hdf5x` contains `hdf5`,
yet the call `mcp__hdf5x__convert` is counted and left unbucketed — the
classification is by exact membership, not substring containment, so the
claimed "contains hdf5 anywhere" direction is false on the code. -/
theorem C3_counterexample :
    strContains "hdf5x" "hdf5" = true
    ∧ (parse_transcript [some (.obj [("tool_name", .str "mcp__hdf5x__convert")])]).total_mcp_calls = 1
    ∧ (parse_transcript [some (.obj [("tool_name", .str "mcp__hdf5x__convert")])]).mcps_by_expert = [] :=
  ⟨rfl, rfl, rfl⟩

/-- Claim C3, amended: a namespaced tool call is bucketed under
`data-expert` exactly when its server segment is literally one of `hdf5`,
`adios`, `parquet`; a server segment outside all four class lists (even
one containing `hdf5` as a proper substring) increments the call total
and is left unbucketed. -/
theorem C3_exact_prefix_classification (t server : String) (rest : List String)
    (h1 : pyStartsWith t "mcp__" = true)
    (h2 : pySplitDunder t = "mcp" :: server :: rest) :
    (server ∈ (["hdf5", "adios", "parquet"] : List String) →
      (parse_transcript [some (.obj [("tool_name", .str t)])]).mcps_by_expert
          = [("data-expert", [t])]
      ∧ (parse_transcript [some (.obj [("tool_name", .str t)])]).total_mcp_calls = 1)
    ∧ (server ∉ (["hdf5", "adios", "parquet", "plot", "pandas", "darshan",
          "node_hardware", "arxiv", "context7"] : List String) →
      (parse_transcript [some (.obj [("tool_name", .str t)])]).mcps_by_expert = []
      ∧ (parse_transcript [some (.obj [("tool_name", .str t)])]).total_mcp_calls = 1) := by
  have hb : (parse_transcript [some (.obj [("tool_name", .str t)])]).mcps_by_expert
      = (toolUpdate initSumState.buckets initSumState.total (.obj [("tool_name", .str t)])).1 :=
    sumStep_buckets initSumState (.obj [("tool_name", .str t)]) (ckLineOk_toolOnly t)
  have ht : (parse_transcript [some (.obj [("tool_name", .str t)])]).total_mcp_calls
      = (toolUpdate initSumState.buckets initSumState.total (.obj [("tool_name", .str t)])).2.1 :=
    sumStep_total initSumState (.obj [("tool_name", .str t)]) (ckLineOk_toolOnly t)
  rw [toolUpdate_toolOnly] at hb ht
  rw [if_pos h1] at hb ht
  have hlen : (pySplitDunder t).length ≥ 2 := by rw [h2]; simp
  rw [if_pos hlen] at hb ht
  have hsrv : (pySplitDunder t).getD 1 "" = server := by
    rw [h2, List.getD_cons_succ, List.getD_cons_zero]
  rw [hsrv] at hb ht
  constructor
  · intro hm
    rw [if_pos hm] at hb ht
    exact ⟨hb.trans rfl, ht.trans rfl⟩
  · intro hm
    have e1 : ¬ server ∈ (["hdf5", "adios", "parquet"] : List String) := by
      intro hx; apply hm
      simp only [List.mem_cons, List.mem_singleton] at hx ⊢
      tauto
    have e2 : ¬ server ∈ (["plot", "pandas"] : List String) := by
      intro hx; apply hm
      simp only [List.mem_cons, List.mem_singleton] at hx ⊢
      tauto
    have e3 : ¬ server ∈ (["darshan", "node_hardware"] : List String) := by
      intro hx; apply hm
      simp only [List.mem_cons, List.mem_singleton] at hx ⊢
      tauto
    have e4 : ¬ server ∈ (["arxiv", "context7"] : List String) := by
      intro hx; apply hm
      simp only [List.mem_cons, List.mem_singleton] at hx ⊢
      tauto
    rw [if_neg e1, if_neg e2, if_neg e3, if_neg e4] at hb ht
    exact ⟨hb.trans rfl, ht.trans rfl⟩

/-- Claim C3, witness: the amended theorem applied to the recognized call
`mcp__hdf5__convert`. -/
theorem C3_witness :
    pyStartsWith "mcp__hdf5__convert" "mcp__" = true
    ∧ pySplitDunder "mcp__hdf5__convert" = ["mcp", "hdf5", "convert"]
    ∧ (parse_transcript [some (.obj [("tool_name", .str "mcp__hdf5__convert")])]).mcps_by_expert
        = [("data-expert", ["mcp__hdf5__convert"])]
    ∧ (parse_transcript [some (.obj [("tool_name", .str "mcp__hdf5__convert")])]).total_mcp_calls = 1 :=
  ⟨rfl, rfl,
   ((C3_exact_prefix_classification "mcp__hdf5__convert" "hdf5" ["convert"] rfl rfl).1 (by decide)).1,
   ((C3_exact_prefix_classification "mcp__hdf5__convert" "hdf5" ["convert"] rfl rfl).1 (by decide)).2⟩

/-- Claim C4: a transcript of valid lines followed by one line that fails
to decode parses to the same experts and files as the valid lines alone. -/
theorem C4_trailing_corrupt_line (lines : List (Option JVal))
    (h : ∀ l ∈ lines, l.isSome = true) :
    (parse_transcript (lines ++ [none])).experts_used
        = (parse_transcript lines).experts_used
    ∧ (parse_transcript (lines ++ [none])).files_processed
        = (parse_transcript lines).files_processed := by
  rw [parse_transcript_append_none]
  exact ⟨rfl, rfl⟩

/-- Claim C4, witness: the theorem applied to a one-valid-line transcript. -/
theorem C4_witness :
    (∀ l ∈ ([some (JVal.obj [("subagent_type", JVal.str "data-expert")])] : List (Option JVal)),
      l.isSome = true)
    ∧ ((parse_transcript ([some (JVal.obj [("subagent_type", JVal.str "data-expert")])] ++ [none])).experts_used
        = (parse_transcript [some (JVal.obj [("subagent_type", JVal.str "data-expert")])]).experts_used
      ∧ (parse_transcript ([some (JVal.obj [("subagent_type", JVal.str "data-expert")])] ++ [none])).files_processed
        = (parse_transcript [some (JVal.obj [("subagent_type", JVal.str "data-expert")])]).files_processed) :=
  ⟨by simp, C4_trailing_corrupt_line _ (by simp)⟩

/-- A record referencing file `a.nc`, used twice in the C5 counterexample. -/
def c5Record : JVal := .obj [("tool_input", .obj [("file_path", .str "a.nc")])]

/-- Claim C5, counterexample: a transcript whose two lines reference the
same file yields a `recent_files` list with the file twice — the scan
appends without deduplication, so the entries are not "the first 5
distinct file-path references". -/
theorem C5_counterexample :
    (create_checkpoint_scan [some c5Record, some c5Record]).last_files
        = [.str "a.nc", .str "a.nc"]
    ∧ ¬ (create_checkpoint_scan [some c5Record, some c5Record]).last_files.Nodup := by
  refine ⟨rfl, ?_⟩
  intro hn
  rw [show (create_checkpoint_scan [some c5Record, some c5Record]).last_files
      = [JVal.str "a.nc", JVal.str "a.nc"] from rfl] at hn
  exact (List.nodup_cons.mp hn).1 (List.mem_singleton.mpr rfl)

/-- Claim C5, amended: the checkpoint file list equals the first at most
5 file-path references (kept with multiplicity, not deduplicated) found
scanning the transcript in reverse; hence it has at most 5 entries and
its first entry is the most recently referenced file. -/
theorem C5_recent_files_reverse_bounded (lines : List (Option JVal)) :
    (create_checkpoint_scan lines).last_files
        = (lines.reverse.filterMap lineFileRef?).take 5
    ∧ (create_checkpoint_scan lines).last_files.length ≤ 5
    ∧ (create_checkpoint_scan lines).last_files.head?
        = (lines.reverse.filterMap lineFileRef?).head? := by
  have h := ckFold_last_files lines.reverse ⟨[], []⟩ (by simp)
  have h2 : (create_checkpoint_scan lines).last_files
      = (lines.reverse.filterMap lineFileRef?).take 5 := by
    unfold create_checkpoint_scan
    simpa using h
  refine ⟨h2, ?_, ?_⟩
  · rw [h2, List.length_take]
    exact min_le_left _ _
  · rw [h2]
    cases lines.reverse.filterMap lineFileRef? with
    | nil => rfl
    | cons a l => rfl

/-- Claim C6: with the `WARPIO_LOG` flag absent from the environment,
both the checkpoint handler and the summary handler exit with status 0
without reading stdin and without performing any filesystem effect. -/
theorem C6_logging_disabled_no_effects (logDirEnv : Option String) (stdin : Option JVal)
    (nowStamp ckStamp : String) (latestExists transcriptReadable : Bool) :
    checkpoint_main none logDirEnv stdin nowStamp ckStamp latestExists
        = ⟨0, false, [], []⟩
    ∧ summary_main none logDirEnv stdin nowStamp transcriptReadable = ⟨0, false, [], []⟩ :=
  ⟨rfl, rfl⟩

/-- Filesystem oracle for the C7 scenario: `/locked` rejects the
write-then-delete probe, every other directory accepts everything. -/
def c7Fs : DirFs := ⟨"/home/user", "/cwd", fun d => !(d == "/locked"), fun _ => true⟩

/-- Claim C7, counterexample: with the override set to an unwritable
directory while `/tmp/warpio-workflows` would pass the probe, the task
logger resolves to the home-rooted fallback — the fixed shared temporary
directory is never tried as a separate candidate, refuting the claimed
four-candidate order. -/
theorem C7_counterexample :
    get_log_directory (some "/locked") c7Fs = "/home/user/.warpio/logs"
    ∧ c7Fs.probeOk "/tmp/warpio-workflows" = true
    ∧ ("/home/user/.warpio/logs" : String) ≠ "/tmp/warpio-workflows" :=
  ⟨rfl, rfl, by decide⟩

/-- Claim C7, amended: the resolver has three candidates, the first being
the override when set and the fixed temporary directory only otherwise;
only this first candidate gets the write-then-delete probe; when the
override is set but fails the probe, the home-rooted fallback (checked by
directory creation only) is chosen next, and an unset override with a
probe-passing fixed temporary directory resolves to that directory. -/
theorem C7_three_candidate_resolution (fs fs2 : DirFs) (d : String)
    (h2 : fs.probeOk d = false)
    (h3 : fs.mkdirOk (fs.home ++ "/.warpio/logs") = true)
    (h4 : fs2.probeOk "/tmp/warpio-workflows" = true) :
    get_log_directory (some d) fs = fs.home ++ "/.warpio/logs"
    ∧ get_log_directory none fs2 = "/tmp/warpio-workflows" := by
  constructor
  · unfold get_log_directory
    simp [h2, h3]
  · unfold get_log_directory
    simp [h4]

/-- Claim C7, witness: the amended theorem applied to the C7 oracle. -/
theorem C7_witness :
    c7Fs.probeOk "/locked" = false
    ∧ c7Fs.mkdirOk (c7Fs.home ++ "/.warpio/logs") = true
    ∧ c7Fs.probeOk "/tmp/warpio-workflows" = true
    ∧ (get_log_directory (some "/locked") c7Fs = c7Fs.home ++ "/.warpio/logs"
       ∧ get_log_directory none c7Fs = "/tmp/warpio-workflows") :=
  ⟨rfl, rfl, rfl, C7_three_candidate_resolution c7Fs c7Fs "/locked" rfl rfl rfl⟩

/-- Trivial filesystem oracle used by the C8 statements. -/
def c8Fs : DirFs := ⟨"/home/user", "/cwd", fun _ => true, fun _ => true⟩

/-- An instant at which the local calendar date (already 2026-01-01) and
the UTC calendar date (still 2025-12-31) differ. -/
def c8Clock : Clock := ⟨"20260101", "20251231"⟩

/-- Claim C8, counterexample: the daily file name is computed from
`datetime.now()`, the local wall clock; at an instant whose local date
differs from the UTC date the chosen name is not the UTC-dated name the
claim requires. -/
theorem C8_counterexample :
    log_task_file none c8Fs c8Clock = "/tmp/warpio-workflows/tasks_20260101.jsonl"
    ∧ c8Clock.localDate ≠ c8Clock.utcDate
    ∧ "/tmp/warpio-workflows/tasks_20260101.jsonl"
        ≠ "/tmp/warpio-workflows" ++ "/tasks_" ++ c8Clock.utcDate ++ ".jsonl" :=
  ⟨rfl, by decide, by decide⟩

/-- Claim C8, amended: every append of one kind targets
`{kind}_{local date:YYYYMMDD}.jsonl` under the resolved directory, where
the date is the local calendar date at the time of the append, so all
appends of one kind within one local calendar day land in the same
file. -/
theorem C8_local_daily_files (workflowDir : Option String) (fs : DirFs) (c c2 : Clock)
    (h : c.localDate = c2.localDate) :
    log_task_file workflowDir fs c
        = get_log_directory workflowDir fs ++ "/tasks_" ++ c.localDate ++ ".jsonl"
    ∧ subagent_results_file c
        = "/tmp/warpio-workflows/subagent_results_" ++ c.localDate ++ ".jsonl"
    ∧ log_task_file workflowDir fs c = log_task_file workflowDir fs c2
    ∧ subagent_results_file c = subagent_results_file c2 := by
  refine ⟨rfl, rfl, ?_, ?_⟩
  · unfold log_task_file
    rw [h]
  · unfold subagent_results_file
    rw [h]

/-- Claim C8, witness: two instants of the same local day target the same
files. -/
theorem C8_witness :
    (Clock.mk "20260101" "20260101").localDate = (Clock.mk "20260101" "20260102").localDate
    ∧ (log_task_file none c8Fs (Clock.mk "20260101" "20260101")
          = get_log_directory none c8Fs ++ "/tasks_"
              ++ (Clock.mk "20260101" "20260101").localDate ++ ".jsonl"
       ∧ subagent_results_file (Clock.mk "20260101" "20260101")
          = "/tmp/warpio-workflows/subagent_results_"
              ++ (Clock.mk "20260101" "20260101").localDate ++ ".jsonl"
       ∧ log_task_file none c8Fs (Clock.mk "20260101" "20260101")
          = log_task_file none c8Fs (Clock.mk "20260101" "20260102")
       ∧ subagent_results_file (Clock.mk "20260101" "20260101")
          = subagent_results_file (Clock.mk "20260101" "20260102")) :=
  ⟨rfl, C8_local_daily_files none c8Fs _ _ rfl⟩

/-- Claim C9, counterexample: two invocations for the same session
(identical `session_id` `s1`) five seconds apart — one pre-compaction
checkpoint, one session-stop summary — create and write into different
session directories, because the directory name is derived from each
own `datetime.now()` of each invocation, not from the session start time. -/
theorem C9_counterexample :
    (checkpoint_main (some "true") none (some (.obj [("session_id", .str "s1")]))
        "20260101-120000" "120000" false).effects.head?
      = some (.mkdirp ".warpio-logs/session-20260101-120000")
    ∧ (summary_main (some "true") none (some (.obj [("session_id", .str "s1")]))
        "20260101-120005" true).effects.head?
      = some (.mkdirp ".warpio-logs/session-20260101-120005")
    ∧ (".warpio-logs/session-20260101-120000" : String)
        ≠ ".warpio-logs/session-20260101-120005" :=
  ⟨rfl, rfl, by decide⟩

/-- Claim C9, amended: each enabled invocation with a decoded dict on
stdin writes under the session directory named from its own invocation
timestamp; the checkpoint handler then writes the timestamp-qualified
checkpoint file and replaces the `latest-checkpoint.json` pointer by
remove-then-recreate (the unlink happens exactly when the pointer already
exists, immediately before the new symlink); the summary handler creates
its own invocation-stamped directory and `session-summary.json`, adding
`summary.md` exactly when the transcript was readable (otherwise the
unconverted sets make `json.dump` raise before it). -/
theorem C9_invocation_named_directories (flag : String) (h : flag ≠ "")
    (logDirEnv : Option String) (flds : List (String × JVal))
    (nowStamp ckStamp : String) (latestExists transcriptReadable : Bool) :
    checkpoint_main (some flag) logDirEnv (some (.obj flds)) nowStamp ckStamp latestExists
      = ⟨0, true,
          [.mkdirp (sessionDir logDirEnv nowStamp),
           .fileWrite (sessionDir logDirEnv nowStamp ++ "/" ++ ("checkpoint-" ++ ckStamp ++ ".json"))] ++
            (if latestExists then [.unlink (sessionDir logDirEnv nowStamp ++ "/latest-checkpoint.json")]
             else []) ++
            [.symlink ("checkpoint-" ++ ckStamp ++ ".json")
              (sessionDir logDirEnv nowStamp ++ "/latest-checkpoint.json")],
          ["✓ Checkpoint created: " ++ ("checkpoint-" ++ ckStamp ++ ".json")]⟩
    ∧ summary_main (some flag) logDirEnv (some (.obj flds)) nowStamp transcriptReadable
      = ⟨0, true,
          [.mkdirp (sessionDir logDirEnv nowStamp),
           .fileWrite (sessionDir logDirEnv nowStamp ++ "/session-summary.json")] ++
            (if transcriptReadable then [.fileWrite (sessionDir logDirEnv nowStamp ++ "/summary.md")]
             else []), []⟩ := by
  constructor
  · simp only [checkpoint_main]
    rw [if_neg h]
    rfl
  · simp only [summary_main]
    rw [if_neg h]
    rfl

/-- Claim C9, witness: the amended theorem at a concrete enabled
invocation with no pre-existing pointer and an empty stdin dict, whose
default `transcript_path` of the empty string is unreadable — so the
summary run stops after creating `session-summary.json` and never writes
`summary.md`. -/
theorem C9_witness :
    (("true" : String) ≠ "")
    ∧ (checkpoint_main (some "true") none (some (.obj [])) "20260101-120000" "120000" false
        = ⟨0, true,
            [.mkdirp ".warpio-logs/session-20260101-120000",
             .fileWrite ".warpio-logs/session-20260101-120000/checkpoint-120000.json",
             .symlink "checkpoint-120000.json"
               ".warpio-logs/session-20260101-120000/latest-checkpoint.json"],
            ["✓ Checkpoint created: checkpoint-120000.json"]⟩
       ∧ summary_main (some "true") none (some (.obj [])) "20260101-120000" false
        = ⟨0, true,
            [.mkdirp ".warpio-logs/session-20260101-120000",
             .fileWrite ".warpio-logs/session-20260101-120000/session-summary.json"], []⟩) :=
  ⟨by decide,
   C9_invocation_named_directories "true" (by decide) none [] "20260101-120000" "120000"
     false false⟩

/-- Claim C10: a decodable dict record whose rendering contains
`subagent_type` without that top-level key makes the parser record the
empty string as an expert; together with one real expert this flips the
orchestration pattern to `multi-expert`. -/
theorem C10_phantom_empty_expert (flds : List (String × JVal))
    (h1 : strContains (pyStr (.obj flds)) "subagent_type" = true)
    (h2 : findField flds "subagent_type" = none) :
    JVal.str "" ∈ (parse_transcript [some (.obj flds)]).experts_used
    ∧ (parse_transcript [some (.obj [("subagent_type", .str "data-expert")]),
          some (.obj flds)]).orchestration_pattern = "multi-expert" := by
  constructor
  · have he1 : (parse_transcript [some (.obj flds)]).experts_used
        = (sumStep initSumState (some (.obj flds))).experts := rfl
    rw [he1, sumStep_experts, expertInsert_noKey initSumState.experts flds h1 h2]
    simp [initSumState]
  · have hfold : (parse_transcript [some (.obj [("subagent_type", .str "data-expert")]),
          some (.obj flds)]).orchestration_pattern
        = if (sumStep (sumStep initSumState (some (.obj [("subagent_type", .str "data-expert")])))
              (some (.obj flds))).experts.length > 1 then "multi-expert" else "single" := rfl
    rw [hfold,
      show sumStep initSumState (some (.obj [("subagent_type", .str "data-expert")]))
        = ⟨[.str "data-expert"], [], 0, []⟩ from rfl,
      sumStep_experts,
      show (SumState.mk [JVal.str "data-expert"] [] 0 []).experts = [JVal.str "data-expert"] from rfl,
      expertInsert_noKey [JVal.str "data-expert"] flds h1 h2]
    decide

/-- Claim C10, witness: the theorem applied to a record nesting
`subagent_type` inside a payload. -/
theorem C10_witness :
    strContains (pyStr (.obj [("payload", .obj [("subagent_type", .str "x")])])) "subagent_type"
        = true
    ∧ findField [("payload", JVal.obj [("subagent_type", JVal.str "x")])] "subagent_type" = none
    ∧ (JVal.str ""
        ∈ (parse_transcript [some (.obj [("payload", .obj [("subagent_type", .str "x")])])]).experts_used
       ∧ (parse_transcript [some (.obj [("subagent_type", .str "data-expert")]),
            some (.obj [("payload", .obj [("subagent_type", .str "x")])])]).orchestration_pattern
          = "multi-expert") :=
  ⟨rfl, rfl, C10_phantom_empty_expert _ rfl rfl⟩

end Warpio
